import Mathlib

/-!
Shallow embedding of the alx-backend-graphql_crm repository:
the CRM data model (crm/models.py), the GraphQL mutation handlers
(crm/schema.py) and the order-reminder cron job
(crm/cron_jobs/send_order_reminders.py).

Conventions of the embedding:
* Decimal money values (product price, order total) are carried as integer
  cents (`Int`), so `10.00` is `1000` and `0.01` is `1`; Python `Decimal`
  arithmetic on two-decimal values is exact, and so is the cent encoding.
* The relational store is a `Store` value threaded through every handler;
  Django's auto-increment primary keys become explicit counters.
* Timestamps are minutes since an epoch (`Nat`); one day is 1440 minutes.
-/

/-- Character class `\d` of the phone regular expression. -/
def isDigitChar (ch : Char) : Bool := decide ('0' ≤ ch) && decide (ch ≤ '9')

/-- Matcher for `\d{9,15}$`: a run of 9 to 15 digits filling the rest of
the input. -/
def digitRun (cs : List Char) : Bool :=
  cs.all isDigitChar && decide (9 ≤ cs.length) && decide (cs.length ≤ 15)

/-- Consume the literal character `ch` and match the rest with `k`. -/
def afterLit (ch : Char) (cs : List Char) (k : List Char → Bool) : Bool :=
  match cs with
  | c :: rest => decide (c = ch) && k rest
  | [] => false

/-- Matcher for the first alternative `^\+?1?\d{9,15}$` of
`Customer.phone_regex` (crm/models.py line 10, reused in
`validate_phone`, crm/schema.py line 53).  The two optional atoms give
four ways to start the match, exactly as the backtracking engine tries
them: consume nothing, a `1`, a `+`, or `+1`, then a run of 9 to 15
digits. -/
def intlAlt (cs : List Char) : Bool :=
  digitRun cs ||
  afterLit '1' cs digitRun ||
  afterLit '+' cs (fun rest => digitRun rest || afterLit '1' rest digitRun)

/-- Matcher for the second alternative `^\d{3}-\d{3}-\d{4}$`. -/
def dashAlt (cs : List Char) : Bool :=
  match cs with
  | [a1, a2, a3, '-', b1, b2, b3, '-', e1, e2, e3, e4] =>
      [a1, a2, a3, b1, b2, b3, e1, e2, e3, e4].all isDigitChar
  | _ => false

/-- The whole pattern `^\+?1?\d{9,15}$|^\d{3}-\d{3}-\d{4}$`. -/
def phoneRegexMatch (cs : List Char) : Bool := intlAlt cs || dashAlt cs

/-- `validate_phone` (crm/schema.py lines 49-54).  A falsy phone
(`None` or the empty string) passes without a pattern check. -/
def validate_phone (phone : Option String) : Bool :=
  match phone with
  | none => true
  | some s => if s.isEmpty then true else phoneRegexMatch s.data

/-- Truthiness of the optional phone field, as used by the guards
`if input.phone and ...` / `if customer_data.phone and ...`. -/
def phoneTruthy (phone : Option String) : Bool :=
  match phone with
  | none => false
  | some s => !s.isEmpty

structure Customer where
  id : Nat
  name : String
  email : String
  phone : Option String
  deriving Repr, DecidableEq

structure Product where
  id : Nat
  name : String
  /-- price in cents -/
  price : Int
  stock : Int
  deriving Repr, DecidableEq

structure Order where
  id : Nat
  customerId : Nat
  /-- the many-to-many association to products, as a list of product ids -/
  productIds : List Nat
  /-- total in cents; the model default is `0.00` -/
  total_amount : Int
  order_date : Nat
  deriving Repr, DecidableEq

/-- The relational store backing the three models, with the
auto-increment counters of the primary keys. -/
structure Store where
  customers : List Customer
  products : List Product
  orders : List Order
  nextCustomerId : Nat
  nextProductId : Nat
  nextOrderId : Nat
  deriving Repr, DecidableEq

/-- `validate_email_unique` (crm/schema.py lines 57-62). -/
def validate_email_unique (store : Store) (email : String)
    (exclude_id : Option Nat) : Bool :=
  let query : List Customer :=
    store.customers.filter (fun c => c.email == email)
  let query2 : List Customer :=
    match exclude_id with
    | some i => query.filter (fun c => !(c.id == i))
    | none => query
  !(!query2.isEmpty)

/-- `Order.calculate_total` (crm/models.py lines 55-59): sums the prices
of the associated products, assigns `total_amount`, and returns the sum. -/
def Order.calculate_total (store : Store) (o : Order) : Int × Order :=
  let total := ((store.products.filter (fun p => o.productIds.contains p.id)).map
    Product.price).sum
  (total, { o with total_amount := total })

structure CustomerInput where
  name : String
  email : String
  phone : Option String
  deriving Repr, DecidableEq

structure ProductInput where
  name : String
  /-- price in cents -/
  price : Int
  stock : Option Int
  deriving Repr, DecidableEq

structure OrderInput where
  customerId : Nat
  productIds : List Nat
  order_date : Option Nat
  deriving Repr, DecidableEq

structure CreateCustomerResult where
  customer : Option Customer
  message : String
  success : Bool
  deriving Repr, DecidableEq

structure BulkCreateCustomersResult where
  customers : List Customer
  errors : List String
  success : Bool
  deriving Repr, DecidableEq

structure CreateProductResult where
  product : Option Product
  message : String
  success : Bool
  deriving Repr, DecidableEq

structure CreateOrderResult where
  order : Option Order
  message : String
  success : Bool
  deriving Repr, DecidableEq

/-- `CreateCustomer.mutate` (crm/schema.py lines 74-107): email
uniqueness first, then phone format, then persist. -/
def createCustomer (store : Store) (input : CustomerInput) :
    CreateCustomerResult × Store :=
  if !(validate_email_unique store input.email none) then
    (⟨none, "Email already exists", false⟩, store)
  else if phoneTruthy input.phone && !(validate_phone input.phone) then
    (⟨none, "Invalid phone format. Use +1234567890 or 123-456-7890", false⟩, store)
  else
    let c : Customer :=
      ⟨store.nextCustomerId, input.name, input.email, input.phone⟩
    (⟨some c, "Customer created successfully", true⟩,
     { store with customers := store.customers ++ [c],
                  nextCustomerId := store.nextCustomerId + 1 })

/-- The loop body of `BulkCreateCustomers.mutate` (crm/schema.py lines
124-142), recursing over the enumerated input; `i` is the 0-based
position of the head item. -/
def bulkCreateCustomersAux (store : Store) (i : Nat) :
    List CustomerInput → List Customer × List String × Store
  | [] => ([], [], store)
  | d :: rest =>
    if !(validate_email_unique store d.email none) then
      let r := bulkCreateCustomersAux store (i + 1) rest
      (r.1, ("Customer " ++ toString (i + 1) ++ ": Email " ++ d.email ++
             " already exists") :: r.2.1, r.2.2)
    else if phoneTruthy d.phone && !(validate_phone d.phone) then
      let r := bulkCreateCustomersAux store (i + 1) rest
      (r.1, ("Customer " ++ toString (i + 1) ++ ": Invalid phone format") :: r.2.1,
       r.2.2)
    else
      let c : Customer := ⟨store.nextCustomerId, d.name, d.email, d.phone⟩
      let store1 : Store :=
        { store with customers := store.customers ++ [c],
                     nextCustomerId := store.nextCustomerId + 1 }
      let r := bulkCreateCustomersAux store1 (i + 1) rest
      (c :: r.1, r.2.1, r.2.2)

/-- `BulkCreateCustomers.mutate` (crm/schema.py lines 118-154):
per-item validation with partial success; `success` is
`len(customers) > 0`. -/
def bulkCreateCustomers (store : Store) (input : List CustomerInput) :
    BulkCreateCustomersResult × Store :=
  let r := bulkCreateCustomersAux store 0 input
  (⟨r.1, r.2.1, decide (0 < r.1.length)⟩, r.2.2)

/-- `CreateProduct.mutate` (crm/schema.py lines 165-199): price must be
positive, a missing stock defaults to 0, stock must be non-negative. -/
def createProduct (store : Store) (input : ProductInput) :
    CreateProductResult × Store :=
  if input.price ≤ 0 then
    (⟨none, "Price must be positive", false⟩, store)
  else
    let stock := input.stock.getD 0
    if stock < 0 then
      (⟨none, "Stock cannot be negative", false⟩, store)
    else
      let p : Product := ⟨store.nextProductId, input.name, input.price, stock⟩
      (⟨some p, "Product created successfully", true⟩,
       { store with products := store.products ++ [p],
                    nextProductId := store.nextProductId + 1 })

/-- Failure injection points for the write sequence of
`CreateOrder.mutate`.  The source (crm/schema.py lines 236-241) performs
`Order.objects.create`, then `order.products.set(products)`, then
`order.calculate_total()` and `order.save()`, with no
`transaction.atomic()` block around them; an exception raised by a later
write is caught by the handler's `except` (line 249) while the earlier
writes stay committed under autocommit. -/
inductive FailPoint where
  | noFail
  | failAtSet
  | failAtSave
  deriving Repr, DecidableEq

/-- `CreateOrder.mutate` (crm/schema.py lines 210-253) with an explicit
failure point for the post-validation writes.  `now` is the
`auto_now_add` timestamp of `order_date`.  The text interpolated from the
caught exception is environment-specific and is fixed here as
"database error". -/
def createOrderAt (store : Store) (input : OrderInput) (now : Nat)
    (fp : FailPoint) : CreateOrderResult × Store :=
  match store.customers.find? (fun c => c.id == input.customerId) with
  | none => (⟨none, "Customer not found", false⟩, store)
  | some _customer =>
    if input.productIds.isEmpty then
      (⟨none, "At least one product must be selected", false⟩, store)
    else
      let products :=
        store.products.filter (fun p => input.productIds.contains p.id)
      if !(products.length == input.productIds.length) then
        (⟨none, "One or more product IDs are invalid", false⟩, store)
      else
        -- Order.objects.create(customer=customer): a committed row with the
        -- model defaults total_amount = 0.00 and no associated products.
        let oid := store.nextOrderId
        let inserted : Order := ⟨oid, input.customerId, [], 0, now⟩
        let store1 : Store :=
          { store with orders := store.orders ++ [inserted],
                       nextOrderId := oid + 1 }
        if fp = FailPoint.failAtSet then
          (⟨none, "Error creating order: database error", false⟩, store1)
        else
          -- order.products.set(products)
          let associated : Order :=
            { inserted with productIds := products.map Product.id }
          let store2 : Store :=
            { store1 with orders := store.orders ++ [associated] }
          if fp = FailPoint.failAtSave then
            (⟨none, "Error creating order: database error", false⟩, store2)
          else
            -- total = order.calculate_total(); order.save()
            let tc := Order.calculate_total store2 associated
            let store3 : Store :=
              { store2 with orders := store.orders ++ [tc.2] }
            (⟨some tc.2,
              "Order created successfully with total amount: $" ++ toString tc.1,
              true⟩, store3)

/-- `CreateOrder.mutate` on the run where no write raises. -/
def createOrder (store : Store) (input : OrderInput) (now : Nat) :
    CreateOrderResult × Store :=
  createOrderAt store input now FailPoint.noFail

/-- Minutes per day of the time encoding. -/
def minutesPerDay : Nat := 1440

/-- Midnight of the calendar day containing `t`; this is what formatting
a datetime with `strftime("%Y-%m-%d")` and parsing it back as a datetime
yields. -/
def startOfDay (t : Nat) : Nat := t / minutesPerDay * minutesPerDay

/-- The `one_week_ago` cutoff of the reminder job
(crm/cron_jobs/send_order_reminders.py line 15):
`(datetime.now() - timedelta(days=7)).strftime("%Y-%m-%d")`, i.e. the
date-truncated instant seven days before `now`. -/
def one_week_ago (now : Nat) : Nat := startOfDay (now - 7 * minutesPerDay)

/-- Email of the customer referenced by an order, as the GraphQL
projection `customer { email }` resolves it. -/
def customerEmail (store : Store) (cid : Nat) : String :=
  match store.customers.find? (fun c => c.id == cid) with
  | some c => c.email
  | none => ""

/-- One log line of the reminder job
(crm/cron_jobs/send_order_reminders.py line 35):
`f"{now} - Order ID: {order['id']}, Email: {order['customer']['email']}"`.
The timestamp is rendered from the minute encoding. -/
def reminderLine (now : Nat) (oid : Nat) (email : String) : String :=
  toString now ++ " - Order ID: " ++ toString oid ++ ", Email: " ++ email

/-- Modelled from the spec: the repository wires no filter arguments into
its `orders` resolver (crm/schema.py lines 261, 272-273) and the URL/settings
modules binding the served schema are not in the sources, so the
server-side meaning of the query argument `orderDate_Gte` used by the
cron job is taken from spec sections 4.4/4.5 together with
`OrderFilter.order_date_gte` (crm/filters.py lines 126-130): keep the
orders with `order_date >= value`.  The job
(crm/cron_jobs/send_order_reminders.py lines 16-35) queries the orders
with `orderDate_Gte: one_week_ago`, then appends one line per returned
order to the log. -/
def send_order_reminders (store : Store) (now : Nat) (log : List String) :
    List String :=
  log ++ (store.orders.filter
      (fun o => decide (one_week_ago now ≤ o.order_date))).map
    (fun o => reminderLine now o.id (customerEmail store o.customerId))

/-- Concrete store for the C1 witness: one customer and two products
priced 10.00 and 15.50 (1000 and 1550 cents). -/
def c1Store : Store :=
  ⟨[⟨1, "Alice", "alice@example.com", none⟩],
   [⟨1, "Widget", 1000, 5⟩, ⟨2, "Gadget", 1550, 5⟩], [], 2, 3, 1⟩

def c1Input : OrderInput := ⟨1, [1, 2], none⟩

/-- Concrete store for claim C2: one customer, one product. -/
def c2Store : Store :=
  ⟨[⟨1, "Ann", "ann@example.com", none⟩], [⟨1, "Widget", 1000, 0⟩], [], 2, 2, 1⟩

/-- Empty store for the C3 counterexample. -/
def c3CStore : Store := ⟨[], [], [], 1, 1, 1⟩

/-- Store for the C3 witness: a resolving customer, a product table
without id 9. -/
def c3Store : Store :=
  ⟨[⟨1, "Ann", "ann@example.com", none⟩], [⟨1, "Widget", 1000, 0⟩], [], 2, 2, 1⟩

/-- Store for the C4 counterexample and witness. -/
def c4Store : Store :=
  ⟨[⟨1, "Ann", "ann@example.com", none⟩], [⟨1, "Widget", 1000, 0⟩], [], 2, 2, 1⟩

/-- Store for the C10 counterexample. -/
def c10CStore : Store := ⟨[], [⟨1, "Widget", 1000, 0⟩], [], 1, 2, 1⟩

/-- Store for the C10 witness. -/
def c10Store : Store :=
  ⟨[⟨1, "Ann", "ann@example.com", none⟩], [⟨1, "Widget", 1000, 0⟩], [], 2, 2, 1⟩

/-- Store for the C5 witness: one existing customer. -/
def c5Store : Store := ⟨[⟨1, "Ann", "ann@example.com", none⟩], [], [], 2, 1, 1⟩

/-- Store for the C8 witness. -/
def c8Store : Store := ⟨[], [], [], 1, 1, 1⟩

/-- Store and batch for the concrete part of C7: an existing customer
holds `a@x.com`; the batch is [valid, duplicate-email, valid]. -/
def c7Store : Store := ⟨[⟨1, "Ann", "a@x.com", none⟩], [], [], 2, 1, 1⟩

def c7Input : List CustomerInput :=
  [⟨"Bob", "b@x.com", none⟩, ⟨"Cara", "a@x.com", none⟩, ⟨"Dan", "c@x.com", none⟩]

/-- Declarative reading of the code's phone pattern: an optional `+`,
an optional `1`, then 9 to 15 digits; or three digits, a dash, three
digits, a dash, four digits. -/
def PhonePattern (cs : List Char) : Prop :=
  (∃ p o ds, cs = p ++ o ++ ds ∧ (p = [] ∨ p = ['+']) ∧ (o = [] ∨ o = ['1']) ∧
     ds.all isDigitChar = true ∧ 9 ≤ ds.length ∧ ds.length ≤ 15) ∨
  (∃ a1 a2 a3 b1 b2 b3 e1 e2 e3 e4,
     cs = [a1, a2, a3, '-', b1, b2, b3, '-', e1, e2, e3, e4] ∧
     ([a1, a2, a3, b1, b2, b3, e1, e2, e3, e4]).all isDigitChar = true)

/-- Follows the spec's words, first alternative: the pattern
`+<country><9-15 digits>` — a mandatory leading `+`, then a non-empty
country code and 9-15 further digits; all-digit tails of length at
least 10 after the `+` are exactly the strings admitting such a split
(country codes are not bounded here, the most charitable reading). -/
def specIntlPattern (cs : List Char) : Bool :=
  match cs with
  | '+' :: rest => rest.all isDigitChar && decide (10 ≤ rest.length)
  | _ => false

/-- Follows the spec's words: `+<country><9-15 digits>` or
`DDD-DDD-DDDD`. -/
def specPhonePattern (cs : List Char) : Bool :=
  specIntlPattern cs || dashAlt cs

/-- Empty store for the C6 witness. -/
def c6Store : Store := ⟨[], [], [], 1, 1, 1⟩

/-- Store for the C9 counterexample: one order placed at minute 360
(6:00 on day 0). -/
def c9CStore : Store :=
  ⟨[⟨1, "Ann", "ann@example.com", none⟩], [], [⟨1, 1, [], 0, 360⟩], 2, 1, 2⟩

/-- Store for the C9 witness at `now` = 20160 (midnight of day 14): an
order from 3 days earlier (minute 15840) and one from 10 days earlier
(minute 5760). -/
def c9Store : Store :=
  ⟨[⟨1, "Ann", "ann@example.com", none⟩], [],
   [⟨1, 1, [], 0, 15840⟩, ⟨2, 1, [], 0, 5760⟩], 2, 1, 3⟩

/-!  Theorems: helper lemmas, then the claim theorems with their
counterexamples and witnesses. -/

/-- Filtering products by a condition on their ids has the same length as
filtering the id column. -/
theorem length_filter_by_id (l : List Product) (q : Nat → Bool) :
    ((l.map Product.id).filter q).length = (l.filter (fun p => q p.id)).length := by
  induction l with
  | nil => rfl
  | cons p t ih => by_cases h : q p.id <;> simp [List.filter_cons, h, ih]

/-- When the product table has pairwise distinct ids, re-filtering the
table by membership of the id in the id column of a previous filter
gives back the previous filter.  This is the round trip
`products.set(queryset)` followed by `self.products.all()`. -/
theorem filter_roundtrip (l : List Product)
    (hn : (l.map Product.id).Nodup) (q : Product → Bool) :
    l.filter (fun p => ((l.filter q).map Product.id).contains p.id) = l.filter q := by
  apply List.filter_congr
  intro p hp
  have hiff : p.id ∈ (l.filter q).map Product.id ↔ q p = true := by
    constructor
    · intro hmem
      obtain ⟨r, hr, hid⟩ := List.mem_map.mp hmem
      have hr2 := List.mem_filter.mp hr
      have hrp : r = p := List.inj_on_of_nodup_map hn hr2.1 hp hid
      exact hrp ▸ hr2.2
    · intro hq
      exact List.mem_map_of_mem _ (List.mem_filter.mpr ⟨hp, hq⟩)
  cases hq : q p with
  | true => simpa [hq] using hiff.mpr hq
  | false =>
    simp only [List.contains, Bool.eq_false_iff]
    intro helem
    have : p.id ∈ (l.filter q).map Product.id := by simpa using helem
    simp [hiff.mp this] at hq

/-- If some requested id resolves to no product, the resolved queryset is
strictly shorter than the raw id list (distinct-primary-key table). -/
theorem resolved_length_lt_of_unresolved (l : List Product) (ids : List Nat)
    (hn : (l.map Product.id).Nodup) (pid : Nat) (hmem : pid ∈ ids)
    (hnores : ∀ p ∈ l, p.id ≠ pid) :
    (l.filter (fun p => ids.contains p.id)).length < ids.length := by
  have hlen : (l.filter (fun p => ids.contains p.id)).length =
      ((l.map Product.id).filter (fun i => ids.contains i)).length :=
    (length_filter_by_id l (fun i => ids.contains i)).symm
  have hfn : ((l.map Product.id).filter (fun i => ids.contains i)).Nodup :=
    hn.filter _
  have hsub : (l.map Product.id).filter (fun i => ids.contains i) ⊆
      ids.dedup.erase pid := by
    intro x hx
    have hx2 := List.mem_filter.mp hx
    have hxids : x ∈ ids := by simpa using hx2.2
    have hxne : x ≠ pid := by
      obtain ⟨p, hp, hpx⟩ := List.mem_map.mp hx2.1
      exact hpx ▸ hnores p hp
    exact (List.mem_erase_of_ne hxne).mpr (List.mem_dedup.mpr hxids)
  have h1 : ((l.map Product.id).filter (fun i => ids.contains i)).length ≤
      (ids.dedup.erase pid).length :=
    (List.subperm_of_subset hfn hsub).length_le
  have hpidd : pid ∈ ids.dedup := List.mem_dedup.mpr hmem
  have h2 : (ids.dedup.erase pid).length = ids.dedup.length - 1 :=
    List.length_erase_of_mem hpidd
  have h3 : ids.dedup.length ≤ ids.length := (ids.dedup_sublist).length_le
  have h4 : 0 < ids.dedup.length := List.length_pos.mpr (List.ne_nil_of_mem hpidd)
  omega

/-- If the requested id list has a repeated entry, the resolved queryset
is strictly shorter than the raw id list (distinct-primary-key table). -/
theorem resolved_length_lt_of_dup (l : List Product) (ids : List Nat)
    (hn : (l.map Product.id).Nodup) (hdup : ¬ ids.Nodup) :
    (l.filter (fun p => ids.contains p.id)).length < ids.length := by
  have hlen : (l.filter (fun p => ids.contains p.id)).length =
      ((l.map Product.id).filter (fun i => ids.contains i)).length :=
    (length_filter_by_id l (fun i => ids.contains i)).symm
  have hfn : ((l.map Product.id).filter (fun i => ids.contains i)).Nodup :=
    hn.filter _
  have hsub : (l.map Product.id).filter (fun i => ids.contains i) ⊆ ids.dedup := by
    intro x hx
    have hx2 := List.mem_filter.mp hx
    exact List.mem_dedup.mpr (by simpa using hx2.2)
  have h1 : ((l.map Product.id).filter (fun i => ids.contains i)).length ≤
      ids.dedup.length :=
    (List.subperm_of_subset hfn hsub).length_le
  have h3 : ids.dedup.length ≤ ids.length := (ids.dedup_sublist).length_le
  have h4 : ids.dedup.length ≠ ids.length := by
    intro he
    exact hdup (List.Sublist.eq_of_length (ids.dedup_sublist) he ▸ ids.nodup_dedup)
  omega

/-- Claim C1: for every successfully created order, the persisted
`total_amount` equals the sum of the prices of the order's associated
products at creation time — the products resolved from the input ids;
the order row appended to the store carries exactly those associations
and that total. -/
theorem c1_order_total (store : Store) (input : OrderInput) (now : Nat)
    (res : CreateOrderResult) (store2 : Store)
    (hn : (store.products.map Product.id).Nodup)
    (hrun : createOrder store input now = (res, store2))
    (hsucc : res.success = true) :
    ∃ o : Order, res.order = some o ∧ store2.orders = store.orders ++ [o] ∧
      o.productIds =
        (store.products.filter (fun p => input.productIds.contains p.id)).map
          Product.id ∧
      o.total_amount =
        ((store.products.filter (fun p => input.productIds.contains p.id)).map
          Product.price).sum := by
  unfold createOrder createOrderAt at hrun
  rcases hfind : store.customers.find? (fun c => c.id == input.customerId) with _ | c
  · rw [hfind] at hrun
    cases hrun
    simp at hsucc
  · rw [hfind] at hrun
    by_cases hemp : input.productIds.isEmpty = true
    · rw [if_pos hemp] at hrun
      cases hrun
      simp at hsucc
    · rw [if_neg hemp] at hrun
      by_cases hlen :
          (!((store.products.filter
              (fun p => input.productIds.contains p.id)).length ==
            input.productIds.length)) = true
      · rw [if_pos hlen] at hrun
        cases hrun
        simp at hsucc
      · rw [if_neg hlen,
            if_neg (by decide : ¬ (FailPoint.noFail = FailPoint.failAtSet)),
            if_neg (by decide : ¬ (FailPoint.noFail = FailPoint.failAtSave))] at hrun
        cases hrun
        refine ⟨_, rfl, rfl, rfl, ?_⟩
        simp only [Order.calculate_total]
        rw [filter_roundtrip store.products hn]

/-- Witness for C1: ordering the two products priced 10.00 and 15.50
persists total 25.50, and `calculate_total` on such an order returns
25.50 and stores it in `total_amount`. -/
theorem c1_order_total_witness :
    (∃ o : Order, (createOrder c1Store c1Input 0).1.order = some o ∧
       (createOrder c1Store c1Input 0).2.orders = c1Store.orders ++ [o] ∧
       o.productIds = [1, 2] ∧ o.total_amount = 2550) ∧
    Order.calculate_total c1Store ⟨1, 1, [1, 2], 0, 0⟩ =
      (2550, ⟨1, 1, [1, 2], 2550, 0⟩) := by
  constructor
  · obtain ⟨o, h1, h2, h3, h4⟩ :=
      c1_order_total c1Store c1Input 0 _ _ (by decide) rfl (by decide)
    exact ⟨o, h1, h2, h3.trans (by decide), h4.trans (by decide)⟩
  · decide

/-- Claim C2: the write sequence of `createOrder` is NOT atomic.  The
handler runs `Order.objects.create`, `products.set` and `save` with no
surrounding `transaction.atomic()`, so when the association write fails
the mutation reports failure yet the already-inserted order row (with
the default total `0.00` and no associated products) stays in the
store — partial order state survives a mid-sequence failure. -/
theorem c2_no_transaction_partial_state :
    (createOrderAt c2Store ⟨1, [1], none⟩ 7 FailPoint.failAtSet).1.success = false ∧
    (createOrderAt c2Store ⟨1, [1], none⟩ 7 FailPoint.failAtSet).2.orders =
      [⟨1, 1, [], 0, 7⟩] ∧
    c2Store.orders = [] := by decide

/-- Counterexample to claim C3 as stated: an input whose product id `1`
resolves to no product, but whose customer id does not resolve either,
is answered with the customer-not-found message, not the
invalid-product message (the customer check runs first). -/
theorem c3_counterexample :
    (1 ∈ ([1] : List Nat) ∧ ∀ p ∈ c3CStore.products, p.id ≠ 1) ∧
    (createOrder c3CStore ⟨1, [1], none⟩ 0).1.message ≠
      "One or more product IDs are invalid" ∧
    (createOrder c3CStore ⟨1, [1], none⟩ 0).1.message = "Customer not found" ∧
    (createOrder c3CStore ⟨1, [1], none⟩ 0).1.success = false := by decide

/-- Shared helper: a resolving customer plus an unresolvable product id
drives `createOrder` into the invalid-product branch before any write. -/
theorem createOrder_unresolved_aux (store : Store) (input : OrderInput)
    (now : Nat) (res : CreateOrderResult) (store2 : Store)
    (hn : (store.products.map Product.id).Nodup)
    (hcust : (store.customers.find? (fun c => c.id == input.customerId)).isSome)
    (pid : Nat) (hmem : pid ∈ input.productIds)
    (hnores : ∀ p ∈ store.products, p.id ≠ pid)
    (hrun : createOrder store input now = (res, store2)) :
    res.success = false ∧
    res.message = "One or more product IDs are invalid" ∧ store2 = store := by
  unfold createOrder createOrderAt at hrun
  rcases hfind : store.customers.find? (fun c => c.id == input.customerId) with _ | c
  · rw [hfind] at hcust
    cases hcust
  · rw [hfind] at hrun
    have hemp : input.productIds.isEmpty = false := by
      cases h : input.productIds with
      | nil => rw [h] at hmem; cases hmem
      | cons a t => simp [h]
    rw [hemp] at hrun
    simp only [Bool.false_eq_true, if_false] at hrun
    have hlt : (store.products.filter
        (fun p => input.productIds.contains p.id)).length <
        input.productIds.length :=
      resolved_length_lt_of_unresolved store.products input.productIds hn pid
        hmem hnores
    have hne : (!((store.products.filter
        (fun p => input.productIds.contains p.id)).length ==
        input.productIds.length)) = true := by
      simp only [Bool.not_eq_true', beq_eq_false_iff_ne, ne_eq]
      omega
    rw [if_pos hne] at hrun
    cases hrun
    exact ⟨rfl, rfl, rfl⟩

/-- Claim C3 (amended): for every `createOrder` input whose customer id
resolves and that contains at least one product id that does not resolve
to an existing product, the mutation returns `success=false` with the
invalid-product message and the store is unchanged. -/
theorem c3_unresolved_product (store : Store) (input : OrderInput) (now : Nat)
    (res : CreateOrderResult) (store2 : Store)
    (hn : (store.products.map Product.id).Nodup)
    (hcust : (store.customers.find? (fun c => c.id == input.customerId)).isSome)
    (pid : Nat) (hmem : pid ∈ input.productIds)
    (hnores : ∀ p ∈ store.products, p.id ≠ pid)
    (hrun : createOrder store input now = (res, store2)) :
    res.success = false ∧
    res.message = "One or more product IDs are invalid" ∧ store2 = store :=
  createOrder_unresolved_aux store input now res store2 hn hcust pid hmem
    hnores hrun

/-- Witness for the amended C3 at a concrete input: product id 9 does
not resolve, so the mutation fails with the invalid-product message and
the store is unchanged. -/
theorem c3_unresolved_product_witness :
    (createOrder c3Store ⟨1, [1, 9], none⟩ 0).1.success = false ∧
    (createOrder c3Store ⟨1, [1, 9], none⟩ 0).1.message =
      "One or more product IDs are invalid" ∧
    (createOrder c3Store ⟨1, [1, 9], none⟩ 0).2 = c3Store :=
  c3_unresolved_product c3Store ⟨1, [1, 9], none⟩ 0 _ _ (by decide) (by decide)
    9 (by decide) (by decide) rfl

/-- Counterexample to claim C4 as stated: two inputs whose sets of
unresolvable ids differ (`{57}` against `{99}`) receive bit-identical
responses, so the invalid ids are not identifiable from the response;
the message is a fixed string that names no id. -/
theorem c4_counterexample :
    (∀ p ∈ c4Store.products, p.id ≠ 57) ∧ (∀ p ∈ c4Store.products, p.id ≠ 99) ∧
    (createOrder c4Store ⟨1, [1, 57], none⟩ 0).1 =
      (createOrder c4Store ⟨1, [1, 99], none⟩ 0).1 ∧
    (createOrder c4Store ⟨1, [1, 57], none⟩ 0).1.success = false := by decide

/-- Claim C4 (amended): when `createOrder` fails because some product
ids do not resolve, the returned message is the fixed string
"One or more product IDs are invalid", which does not depend on — and
hence does not report — which ids were invalid. -/
theorem c4_fixed_invalid_message (store : Store) (input : OrderInput) (now : Nat)
    (hn : (store.products.map Product.id).Nodup)
    (hcust : (store.customers.find? (fun c => c.id == input.customerId)).isSome)
    (pid : Nat) (hmem : pid ∈ input.productIds)
    (hnores : ∀ p ∈ store.products, p.id ≠ pid) :
    (createOrder store input now).1.message =
      "One or more product IDs are invalid" :=
  (createOrder_unresolved_aux store input now _ _ hn hcust pid hmem hnores
    rfl).2.1

/-- Witness for the amended C4 at a concrete input: id 57 does not
resolve and the response carries the fixed invalid-product message. -/
theorem c4_fixed_invalid_message_witness :
    (createOrder c4Store ⟨1, [1, 57], none⟩ 0).1.message =
      "One or more product IDs are invalid" :=
  c4_fixed_invalid_message c4Store ⟨1, [1, 57], none⟩ 0 (by decide) (by decide)
    57 (by decide) (by decide)

/-- Counterexample to claim C10 as stated: a productIds list `[1, 1]`
that duplicates the existing product id 1, sent with a customer id that
does not resolve, is answered with the customer-not-found message, not
the invalid-product-IDs message (the customer check runs first). -/
theorem c10_counterexample :
    ¬ ([1, 1] : List Nat).Nodup ∧
    (∀ pid ∈ ([1, 1] : List Nat), ∃ p ∈ c10CStore.products, p.id = pid) ∧
    (createOrder c10CStore ⟨5, [1, 1], none⟩ 0).1.message ≠
      "One or more product IDs are invalid" ∧
    (createOrder c10CStore ⟨5, [1, 1], none⟩ 0).1.message =
      "Customer not found" := by decide

/-- Claim C10 (amended): for every `createOrder` input whose customer id
resolves and whose productIds list contains a duplicate, the mutation
returns `success=false` with the invalid-product-IDs message and creates
no order, even when every listed id resolves to an existing product:
the resolved-product count is compared to the raw list length. -/
theorem c10_duplicate_ids (store : Store) (input : OrderInput) (now : Nat)
    (res : CreateOrderResult) (store2 : Store)
    (hn : (store.products.map Product.id).Nodup)
    (hcust : (store.customers.find? (fun c => c.id == input.customerId)).isSome)
    (hdup : ¬ input.productIds.Nodup)
    (_hres : ∀ pid ∈ input.productIds, ∃ p ∈ store.products, p.id = pid)
    (hrun : createOrder store input now = (res, store2)) :
    res.success = false ∧
    res.message = "One or more product IDs are invalid" ∧ store2 = store := by
  unfold createOrder createOrderAt at hrun
  rcases hfind : store.customers.find? (fun c => c.id == input.customerId) with _ | c
  · rw [hfind] at hcust
    cases hcust
  · rw [hfind] at hrun
    have hemp : input.productIds.isEmpty = false := by
      cases h : input.productIds with
      | nil => rw [h] at hdup; exact absurd List.nodup_nil hdup
      | cons a t => simp [h]
    rw [hemp] at hrun
    simp only [Bool.false_eq_true, if_false] at hrun
    have hlt : (store.products.filter
        (fun p => input.productIds.contains p.id)).length <
        input.productIds.length :=
      resolved_length_lt_of_dup store.products input.productIds hn hdup
    have hne : (!((store.products.filter
        (fun p => input.productIds.contains p.id)).length ==
        input.productIds.length)) = true := by
      simp only [Bool.not_eq_true', beq_eq_false_iff_ne, ne_eq]
      omega
    rw [if_pos hne] at hrun
    cases hrun
    exact ⟨rfl, rfl, rfl⟩

/-- Witness for the amended C10: duplicating the existing product id 1
in the list makes the mutation fail and leaves the store unchanged. -/
theorem c10_duplicate_ids_witness :
    (createOrder c10Store ⟨1, [1, 1], none⟩ 0).1.success = false ∧
    (createOrder c10Store ⟨1, [1, 1], none⟩ 0).1.message =
      "One or more product IDs are invalid" ∧
    (createOrder c10Store ⟨1, [1, 1], none⟩ 0).2 = c10Store :=
  c10_duplicate_ids c10Store ⟨1, [1, 1], none⟩ 0 _ _ (by decide) (by decide)
    (by decide) (by decide) rfl

/-- Claim C5: a `createCustomer` input whose email exactly matches the
email of an existing customer is rejected with the duplicate-email
message and the store is unchanged — whatever the phone field holds,
since the email check runs before the phone-format check. -/
theorem c5_duplicate_email (store : Store) (input : CustomerInput)
    (hdup : ∃ c ∈ store.customers, c.email = input.email) :
    createCustomer store input = (⟨none, "Email already exists", false⟩, store) := by
  have huniq : validate_email_unique store input.email none = false := by
    obtain ⟨c, hc, he⟩ := hdup
    have hmem : c ∈ store.customers.filter
        (fun c => c.email == input.email) :=
      List.mem_filter.mpr ⟨hc, by simp [he]⟩
    simp [validate_email_unique, List.isEmpty_iff, List.ne_nil_of_mem hmem]
  unfold createCustomer
  rw [huniq]
  rfl

/-- Witness for C5 at a concrete input: the duplicate email wins even
though the phone "abc" is also invalid, exhibiting the check order. -/
theorem c5_duplicate_email_witness :
    createCustomer c5Store ⟨"Bob", "ann@example.com", some "abc"⟩ =
      (⟨none, "Email already exists", false⟩, c5Store) ∧
    validate_phone (some "abc") = false :=
  ⟨c5_duplicate_email c5Store ⟨"Bob", "ann@example.com", some "abc"⟩
    (by decide), by decide⟩

/-- Claim C8: `createProduct` fails with the invalid-price message for
every price <= 0 and the store is untouched; with a positive price, a
negative stock fails with the negative-stock message; with a positive
price and a non-negative (or missing, defaulting to 0) stock it
succeeds and persists the product with that price and stock. -/
theorem c8_create_product (store : Store) (input : ProductInput) :
    (input.price ≤ 0 →
      createProduct store input = (⟨none, "Price must be positive", false⟩, store)) ∧
    (0 < input.price → input.stock.getD 0 < 0 →
      createProduct store input = (⟨none, "Stock cannot be negative", false⟩, store)) ∧
    (0 < input.price → 0 ≤ input.stock.getD 0 →
      ∃ p : Product, (createProduct store input).1 =
          ⟨some p, "Product created successfully", true⟩ ∧
        (createProduct store input).2.products = store.products ++ [p] ∧
        p.price = input.price ∧ p.stock = input.stock.getD 0) := by
  refine ⟨fun hle => ?_, fun hpos hneg => ?_, fun hpos hnn => ?_⟩
  · unfold createProduct
    rw [if_pos hle]
  · unfold createProduct
    rw [if_neg (by omega), if_pos hneg]
  · unfold createProduct
    rw [if_neg (by omega), if_neg (by omega)]
    exact ⟨_, rfl, rfl, rfl, rfl⟩

/-- Witness for C8 at concrete inputs: price 0 and price -5.00 fail,
price 0.01 (1 cent) with a missing stock succeeds with stock 0, and a
negative stock fails. -/
theorem c8_create_product_witness :
    createProduct c8Store ⟨"A", 0, none⟩ =
      (⟨none, "Price must be positive", false⟩, c8Store) ∧
    createProduct c8Store ⟨"A", -500, none⟩ =
      (⟨none, "Price must be positive", false⟩, c8Store) ∧
    createProduct c8Store ⟨"A", 1, some (-1)⟩ =
      (⟨none, "Stock cannot be negative", false⟩, c8Store) ∧
    (∃ p : Product, (createProduct c8Store ⟨"A", 1, none⟩).1 =
        ⟨some p, "Product created successfully", true⟩ ∧
      (createProduct c8Store ⟨"A", 1, none⟩).2.products = [p] ∧
      p.price = 1 ∧ p.stock = 0) := by
  refine ⟨(c8_create_product c8Store ⟨"A", 0, none⟩).1 (by decide),
          (c8_create_product c8Store ⟨"A", -500, none⟩).1 (by decide),
          (c8_create_product c8Store ⟨"A", 1, some (-1)⟩).2.1 (by decide) (by decide),
          ?_⟩
  obtain ⟨p, h1, h2, h3, h4⟩ :=
    (c8_create_product c8Store ⟨"A", 1, none⟩).2.2 (by decide) (by decide)
  exact ⟨p, h1, by simpa using h2, h3, h4⟩

/-- Invariants of the bulk loop: the final store appends exactly the
created customers, and every input item yields exactly one created
customer or one error entry. -/
theorem bulk_aux_spec (input : List CustomerInput) :
    ∀ (store : Store) (i : Nat),
    (bulkCreateCustomersAux store i input).2.2.customers =
      store.customers ++ (bulkCreateCustomersAux store i input).1 ∧
    (bulkCreateCustomersAux store i input).1.length +
      (bulkCreateCustomersAux store i input).2.1.length = input.length := by
  induction input with
  | nil => intro store i; simp [bulkCreateCustomersAux]
  | cons d rest ih =>
    intro store i
    unfold bulkCreateCustomersAux
    by_cases h1 : (!(validate_email_unique store d.email none)) = true
    · rw [if_pos h1]
      obtain ⟨ha, hb⟩ := ih store (i + 1)
      refine ⟨by simpa using ha, ?_⟩
      simp only [List.length_cons]
      omega
    · rw [if_neg h1]
      by_cases h2 : (phoneTruthy d.phone && !(validate_phone d.phone)) = true
      · rw [if_pos h2]
        obtain ⟨ha, hb⟩ := ih store (i + 1)
        refine ⟨by simpa using ha, ?_⟩
        simp only [List.length_cons]
        omega
      · rw [if_neg h2]
        obtain ⟨ha, hb⟩ := ih
          { store with
              customers := store.customers ++
                [⟨store.nextCustomerId, d.name, d.email, d.phone⟩],
              nextCustomerId := store.nextCustomerId + 1 } (i + 1)
        refine ⟨?_, ?_⟩
        · simpa using ha
        · simp only [List.length_cons]
          omega

/-- Claim C7: `bulkCreateCustomers` validates items independently with
partial success — the created customers are exactly the ones appended to
the store, every item yields exactly one created customer or one
position-keyed error entry, and `success` is true iff at least one item
was created; the batch [valid, duplicate-email, valid] yields 2 created
customers, 1 error entry (keyed "Customer 2"), and `success=true`. -/
theorem c7_bulk_partial_success (store : Store) (input : List CustomerInput) :
    ((bulkCreateCustomers store input).1.success = true ↔
      (bulkCreateCustomers store input).1.customers ≠ []) ∧
    (bulkCreateCustomers store input).1.customers.length +
      (bulkCreateCustomers store input).1.errors.length = input.length ∧
    (bulkCreateCustomers store input).2.customers =
      store.customers ++ (bulkCreateCustomers store input).1.customers ∧
    (bulkCreateCustomers c7Store c7Input).1.customers.length = 2 ∧
    (bulkCreateCustomers c7Store c7Input).1.errors =
      ["Customer 2: Email a@x.com already exists"] ∧
    (bulkCreateCustomers c7Store c7Input).1.success = true := by
  obtain ⟨ha, hb⟩ := bulk_aux_spec input store 0
  refine ⟨?_, ?_, ?_, by decide, by decide, by decide⟩
  · simp [bulkCreateCustomers, List.length_pos]
  · simpa [bulkCreateCustomers] using hb
  · simpa [bulkCreateCustomers] using ha

theorem digitRun_iff (cs : List Char) : digitRun cs = true ↔
    cs.all isDigitChar = true ∧ 9 ≤ cs.length ∧ cs.length ≤ 15 := by
  simp [digitRun, Bool.and_eq_true, and_assoc]

theorem afterLit_iff (ch : Char) (cs : List Char) (k : List Char → Bool) :
    afterLit ch cs k = true ↔ ∃ rest, cs = ch :: rest ∧ k rest = true := by
  cases cs with
  | nil => simp [afterLit]
  | cons c rest =>
    simp only [afterLit, Bool.and_eq_true, decide_eq_true_eq, List.cons.injEq]
    constructor
    · rintro ⟨rfl, hk⟩
      exact ⟨rest, ⟨rfl, rfl⟩, hk⟩
    · rintro ⟨r, ⟨rfl, rfl⟩, hk⟩
      exact ⟨rfl, hk⟩

/-- The executable matcher for `^\+?1?\d{9,15}$` recognises exactly the
declarative language of the regular expression. -/
theorem intlAlt_iff (cs : List Char) : intlAlt cs = true ↔
    ∃ p o ds, cs = p ++ o ++ ds ∧ (p = [] ∨ p = ['+']) ∧ (o = [] ∨ o = ['1']) ∧
      ds.all isDigitChar = true ∧ 9 ≤ ds.length ∧ ds.length ≤ 15 := by
  constructor
  · intro h
    unfold intlAlt at h
    simp only [Bool.or_eq_true] at h
    rcases h with (h1 | h2) | h3
    · obtain ⟨d1, d2, d3⟩ := (digitRun_iff cs).mp h1
      exact ⟨[], [], cs, by simp, Or.inl rfl, Or.inl rfl, d1, d2, d3⟩
    · obtain ⟨rest, rfl, hk⟩ := (afterLit_iff _ _ _).mp h2
      obtain ⟨d1, d2, d3⟩ := (digitRun_iff rest).mp hk
      exact ⟨[], ['1'], rest, by simp, Or.inl rfl, Or.inr rfl, d1, d2, d3⟩
    · obtain ⟨rest, rfl, hk⟩ := (afterLit_iff _ _ _).mp h3
      simp only [Bool.or_eq_true] at hk
      rcases hk with hk1 | hk2
      · obtain ⟨d1, d2, d3⟩ := (digitRun_iff rest).mp hk1
        exact ⟨['+'], [], rest, by simp, Or.inr rfl, Or.inl rfl, d1, d2, d3⟩
      · obtain ⟨rest2, rfl, hk3⟩ := (afterLit_iff _ _ _).mp hk2
        obtain ⟨d1, d2, d3⟩ := (digitRun_iff rest2).mp hk3
        exact ⟨['+'], ['1'], rest2, by simp, Or.inr rfl, Or.inr rfl, d1, d2, d3⟩
  · rintro ⟨p, o, ds, rfl, hp, ho, h1, h2, h3⟩
    have hds : digitRun ds = true := (digitRun_iff ds).mpr ⟨h1, h2, h3⟩
    rcases hp with rfl | rfl <;> rcases ho with rfl | rfl
    · simpa [intlAlt] using Or.inl (Or.inl hds)
    · have h1d : afterLit '1' ('1' :: ds) digitRun = true :=
        (afterLit_iff _ _ _).mpr ⟨ds, rfl, hds⟩
      simpa [intlAlt] using Or.inl (Or.inr h1d)
    · have hpd : afterLit '+' ('+' :: ds)
          (fun rest => digitRun rest || afterLit '1' rest digitRun) = true :=
        (afterLit_iff _ _ _).mpr ⟨ds, rfl, by simp [hds]⟩
      simpa [intlAlt] using Or.inr hpd
    · have h1d : afterLit '1' ('1' :: ds) digitRun = true :=
        (afterLit_iff _ _ _).mpr ⟨ds, rfl, hds⟩
      have hpd : afterLit '+' ('+' :: '1' :: ds)
          (fun rest => digitRun rest || afterLit '1' rest digitRun) = true :=
        (afterLit_iff _ _ _).mpr ⟨'1' :: ds, rfl, by simp [h1d]⟩
      simpa [intlAlt] using Or.inr hpd

/-- The executable matcher for `^\d{3}-\d{3}-\d{4}$` recognises exactly
the `DDD-DDD-DDDD` shapes. -/
theorem dashAlt_iff (cs : List Char) : dashAlt cs = true ↔
    ∃ a1 a2 a3 b1 b2 b3 e1 e2 e3 e4,
      cs = [a1, a2, a3, '-', b1, b2, b3, '-', e1, e2, e3, e4] ∧
      ([a1, a2, a3, b1, b2, b3, e1, e2, e3, e4]).all isDigitChar = true := by
  constructor
  · intro h
    unfold dashAlt at h
    split at h
    · next a1 a2 a3 b1 b2 b3 e1 e2 e3 e4 =>
        exact ⟨a1, a2, a3, b1, b2, b3, e1, e2, e3, e4, rfl, h⟩
    · cases h
  · rintro ⟨a1, a2, a3, b1, b2, b3, e1, e2, e3, e4, rfl, h⟩
    exact h

/-- Counterexample to claim C6 as stated: the nine-digit string
"123456789" passes `validate_phone` — the code's regex makes the
leading `+` optional — yet it matches neither of the spec's patterns
`+<country><9-15 digits>` (no leading `+`) and `DDD-DDD-DDDD`. -/
theorem c6_counterexample :
    validate_phone (some "123456789") = true ∧
    specPhonePattern "123456789".data = false ∧
    phoneTruthy (some "123456789") = true := by decide

/-- Claim C6 (amended): a present non-empty phone value passes
`validate_phone` iff it is an optional `+`, then an optional `1`, then
9-15 digits, or has the `DDD-DDD-DDDD` shape (the leading `+` is NOT
required by the code); when it fails, `createCustomer` with a fresh
email answers with the invalid-phone message and an unchanged store. -/
theorem c6_phone_validation (s : String) (store : Store)
    (input : CustomerInput) (hne : s ≠ "") (hinp : input.phone = some s)
    (hfresh : validate_email_unique store input.email none = true) :
    (validate_phone (some s) = true ↔ PhonePattern s.data) ∧
    (validate_phone (some s) = false →
      createCustomer store input =
        (⟨none, "Invalid phone format. Use +1234567890 or 123-456-7890", false⟩,
         store)) := by
  have hse : s.isEmpty = false := by
    cases hh : s.isEmpty with
    | false => rfl
    | true => exact absurd ((String.isEmpty_iff s).mp hh) hne
  constructor
  · simp only [validate_phone, hse, Bool.false_eq_true, if_false]
    unfold phoneRegexMatch PhonePattern
    simp only [Bool.or_eq_true]
    constructor
    · rintro (h | h)
      · exact Or.inl ((intlAlt_iff s.data).mp h)
      · exact Or.inr ((dashAlt_iff s.data).mp h)
    · rintro (h | h)
      · exact Or.inl ((intlAlt_iff s.data).mpr h)
      · exact Or.inr ((dashAlt_iff s.data).mpr h)
  · intro hf
    unfold createCustomer
    rw [hfresh, hinp]
    simp [phoneTruthy, hse, hf]

/-- Witness for the amended C6 at concrete inputs: "+12345678901" is in
the declarative language, "123-456-7890" is accepted, "abc" makes the
mutation fail with the invalid-phone message, "12345" is rejected. -/
theorem c6_phone_validation_witness :
    PhonePattern "+12345678901".data ∧
    createCustomer c6Store ⟨"Ned", "ned@example.com", some "abc"⟩ =
      (⟨none, "Invalid phone format. Use +1234567890 or 123-456-7890", false⟩,
       c6Store) ∧
    validate_phone (some "123-456-7890") = true ∧
    validate_phone (some "12345") = false := by
  have h1 := c6_phone_validation "+12345678901" c6Store
      ⟨"Ned", "ned@example.com", some "+12345678901"⟩ (by decide) rfl (by decide)
  have h2 := c6_phone_validation "abc" c6Store
      ⟨"Ned", "ned@example.com", some "abc"⟩ (by decide) rfl (by decide)
  exact ⟨h1.1.mp (by decide), h2.2 (by decide), by decide, by decide⟩

/-- Counterexample to claim C9 as stated: at `now` = 10800 (noon on day
7), the order dated 360 is strictly older than `now` minus 7 days
(360 + 10080 < 10800), yet the job selects it and writes its log line,
because the cutoff is the date-truncated `one_week_ago` (midnight of day
0), not `now` minus 7 days. -/
theorem c9_counterexample :
    (⟨1, 1, [], 0, 360⟩ : Order) ∈ c9CStore.orders.filter
        (fun o => decide (one_week_ago 10800 ≤ o.order_date)) ∧
    reminderLine 10800 1 "ann@example.com" ∈
      send_order_reminders c9CStore 10800 [] ∧
    360 + 7 * minutesPerDay < 10800 := by decide

/-- Claim C9 (amended): the reminder job selects exactly the orders with
`order_date` at or after midnight of the calendar day seven days before
`now` (the date-truncated cutoff `one_week_ago`), and appends one log
line (timestamp, order id, customer email) per selected order; an order
dated 3 days ago is selected and logged, an order dated 10 days ago is
not selected. -/
theorem c9_reminder_selection (store : Store) (now : Nat) (log : List String)
    (h : 14400 ≤ now) :
    (send_order_reminders store now log).length =
      log.length + (store.orders.filter
        (fun o => decide (one_week_ago now ≤ o.order_date))).length ∧
    (∀ o ∈ store.orders, now - 3 * minutesPerDay ≤ o.order_date →
      reminderLine now o.id (customerEmail store o.customerId) ∈
        send_order_reminders store now log) ∧
    (∀ o ∈ store.orders, o.order_date + 10 * minutesPerDay ≤ now →
      o ∉ store.orders.filter
        (fun o => decide (one_week_ago now ≤ o.order_date))) := by
  refine ⟨?_, ?_, ?_⟩
  · simp [send_order_reminders]
  · intro o ho hd
    have hcut : one_week_ago now ≤ o.order_date := by
      unfold one_week_ago startOfDay minutesPerDay at *
      omega
    exact List.mem_append_right _ (List.mem_map_of_mem _
      (List.mem_filter.mpr ⟨ho, by simpa using hcut⟩))
  · intro o ho hd hmem
    have h2 := List.mem_filter.mp hmem
    have hcut : one_week_ago now ≤ o.order_date := by simpa using h2.2
    unfold one_week_ago startOfDay minutesPerDay at *
    omega

/-- Witness for the amended C9: the 3-days-old order's line is in the
log, the 10-days-old order is not selected. -/
theorem c9_reminder_selection_witness :
    reminderLine 20160 1 "ann@example.com" ∈
      send_order_reminders c9Store 20160 [] ∧
    (⟨2, 1, [], 0, 5760⟩ : Order) ∉ c9Store.orders.filter
      (fun o => decide (one_week_ago 20160 ≤ o.order_date)) := by
  have h := c9_reminder_selection c9Store 20160 [] (by decide)
  exact ⟨h.2.1 ⟨1, 1, [], 0, 15840⟩ (by decide) (by decide),
         h.2.2 ⟨2, 1, [], 0, 5760⟩ (by decide) (by decide)⟩
